import Mathlib

/-
Shallow embedding of the booking app (app.py): the availability calculator
(generate_slots, overlaps, the avail_slots filter loop), the booking append
(save_booking and the guest confirmation handler), the admin status update,
and the add-service form.  Times of day are modelled as minutes since
midnight of the selected day (Nat); datetime values on the timeline of the
selected day are likewise minutes since that midnight, so adding a duration
does not wrap, while the Python .time() projection is modulo 1440.
-/

namespace Salonic

/-- WORKING_HOURS = (time(9,0), time(18,0)): opening time, minutes since midnight. -/
def workOpen : Nat := 9 * 60

/-- WORKING_HOURS = (time(9,0), time(18,0)): closing time, minutes since midnight. -/
def workClose : Nat := 18 * 60

/-- SLOT_MINUTES = 30. -/
def SLOT_MINUTES : Nat := 30

/-- Minutes in a day; datetime.time() projects the timeline onto [0, 1440). -/
def minutesPerDay : Nat := 1440

/-- Two-digit zero padding, as strftime's %H / %M produce. -/
def pad2 (n : Nat) : String :=
  if n < 10 then "0" ++ toString n else toString n

/-- strftime("%H:%M") applied to the time-of-day of a timeline point `n`
(minutes since midnight of the selected day): hour is n/60 mod 24. -/
def fmtHM (n : Nat) : String :=
  pad2 (n / 60 % 24) ++ ":" ++ pad2 (n % 60)

/-- Split a character list at every occurrence of `sep` (the pieces between
separators, in order; mirrors str.split(sep)). -/
def splitParts (sep : Char) : List Char → List (List Char)
  | [] => [[]]
  | c :: cs =>
    if c = sep then [] :: splitParts sep cs
    else
      match splitParts sep cs with
      | p :: ps => (c :: p) :: ps
      | [] => [[c]]

/-- Numeric value of a list of decimal digit characters. -/
def digitsVal (ds : List Char) : Nat :=
  ds.foldl (fun n c => n * 10 + (c.toNat - 48)) 0

/-- A non-empty run of at most `k` decimal digits (what strptime's %H and %M
each consume). -/
def digitField (k : Nat) (ds : List Char) : Bool :=
  decide (0 < ds.length) && decide (ds.length ≤ k) && ds.all Char.isDigit

/-- datetime.strptime(s, "%H:%M").time() as minutes since midnight:
one or two digits for the hour (0..23), ":", one or two digits for the
minutes (0..59), nothing else; None models the ValueError raised otherwise. -/
def parseHM (s : String) : Option Nat :=
  match splitParts ':' s.toList with
  | [h, m] =>
    if digitField 2 h && digitField 2 m then
      let hv := digitsVal h
      let mv := digitsVal m
      if hv ≤ 23 && mv ≤ 59 then some (hv * 60 + mv) else none
    else none
  | _ => none

/-- def overlaps(start_a, end_a, start_b, end_b):
return (start_a < end_b) and (end_a > start_b) -/
def overlaps (start_a end_a start_b end_b : Nat) : Bool :=
  decide (start_a < end_b) && decide (end_a > start_b)

/-- The while loop of generate_slots, with an explicit fuel that merely
bounds the number of iterations (each iteration moves `cur` forward by 30,
so `endT + 1 - cur` iterations never run out of fuel; the guard, not the
fuel, terminates the loop — see `slotsLoop_eq`). -/
def slotsLoopF : Nat → Nat → Nat → List String
  | 0, _, _ => []
  | fuel + 1, cur, endT =>
    if cur + 15 ≤ endT then fmtHM cur :: slotsLoopF fuel (cur + SLOT_MINUTES) endT
    else []

/-- The while loop of generate_slots: while cur + 15min <= end_dt, emit
cur.time().strftime("%H:%M") and step by SLOT_MINUTES. -/
def slotsLoop (cur endT : Nat) : List String :=
  slotsLoopF (endT + 1 - cur) cur endT

/-- generate_slots(selected_date, services_df, bookings_df): candidate start
times from opening to closing in SLOT_MINUTES steps with the 15-minute
minimal-visibility guard.  The date and both dataframe arguments are taken
but never read by the body. -/
def generate_slots {α β : Type} (selected_date : String)
    (services_df : α) (bookings_df : β) : List String :=
  let _ := selected_date
  let _ := services_df
  let _ := bookings_df
  slotsLoop workOpen workClose

/-- The candidate list for the fixed configuration (line 197's slot_list). -/
def slot_list : List String := generate_slots "" () ()

/-- One row of the Bookings sheet as the availability loop reads it:
the date (ISO string) and the stored start_time / end_time strings. -/
structure Booking where
  date : String
  start_time : String
  end_time : String
  deriving Repr, DecidableEq

/-- The body of the conflict loop for one booking row rb: parse the stored
times; on parse failure `continue` (no conflict from this row), otherwise
the half-open overlap test against [stime, etime). -/
def rowConflict (stime etime : Nat) (rb : Booking) : Bool :=
  match parseHM rb.start_time, parseHM rb.end_time with
  | some b_start, some b_end => overlaps stime etime b_start b_end
  | _, _ => false

/-- The conflict flag for a candidate against all of the day's bookings
(the for-loop with `break` on the first overlap equals an any-scan). -/
def anyConflict (stime etime : Nat) (day_bookings : List Booking) : Bool :=
  day_bookings.any (rowConflict stime etime)

/-- Lines 197-218: build slot_list, keep the day's bookings
(bookings_df filtered to rows whose date equals the selected date), and keep
a candidate s iff no booking conflicts and etime.time() <= WORKING_HOURS[1].
stime is the candidate on the day's timeline, etime = stime + duration
(a datetime, not wrapped); only the final closing comparison projects with
.time(), i.e. modulo 1440.  Candidates always parse (they were produced by
strftime), so the none branch is unreachable. -/
def avail_slots (selected_date : String) (duration_min : Nat)
    (bookings_df : List Booking) : List String :=
  let day_bookings := bookings_df.filter (fun b => b.date == selected_date)
  (generate_slots selected_date () bookings_df).filter fun s =>
    match parseHM s with
    | some stime =>
        !anyConflict stime (stime + duration_min) day_bookings
          && decide ((stime + duration_min) % minutesPerDay ≤ workClose)
    | none => false

/-- Python str.strip() on a character list: drop whitespace from both ends. -/
def stripChars (l : List Char) : List Char :=
  ((l.dropWhile Char.isWhitespace).reverse.dropWhile Char.isWhitespace).reverse

/-- Python str.strip(): remove leading and trailing whitespace. -/
def strip (s : String) : String :=
  String.mk (stripChars s.toList)

/-- A spreadsheet cell value as written back by the app: gspread cells are
integers or strings here. -/
inductive Cell where
  | int (n : Int) : Cell
  | str (s : String) : Cell
  deriving Repr, DecidableEq

/-- Python str() of a cell value (used by the admin id comparison). -/
def cellStr : Cell → String
  | .int n => toString n
  | .str s => s

/-- The Bookings sheet header appended by ensure_sheets (line 113). -/
def bookingsHeader : List String :=
  ["id", "date", "start_time", "end_time", "service", "duration_min",
   "name", "phone", "status", "note", "created_at"]

/-- The booking dict built by the guest confirmation handler
(lines 232-241): date is the selected date's isoformat, start_time the
selected slot, end_time is (combine(date, strptime(start)) +
duration).time().strftime("%H:%M"), i.e. the start plus the duration
projected to a time of day (modulo one day); name, phone and note are
stripped.  The selected time always comes from avail_slots, hence parses;
the none branch models the unreachable strptime failure. -/
structure BookingRecord where
  date : String
  start_time : String
  end_time : String
  service : String
  duration_min : Nat
  name : String
  phone : String
  note : String
  deriving Repr, DecidableEq

def mkBookingRecord (selected_date selected_time : String) (duration_min : Nat)
    (service name phone note : String) : BookingRecord :=
  { date := selected_date
    start_time := selected_time
    end_time :=
      match parseHM selected_time with
      | some stime => fmtHM ((stime + duration_min) % minutesPerDay)
      | none => ""
    service := service
    duration_min := duration_min
    name := strip name
    phone := strip phone
    note := strip note }

/-- save_booking (lines 157-175): booking_id = int(utcnow().timestamp()*1000)
is the current wall clock in milliseconds (now_ms); the appended row lists
the eleven cells in the Bookings header order, with the literal status
"booked" and created_at the current timestamp's isoformat string. -/
def save_booking (now_ms : Nat) (created_at : String) (b : BookingRecord) :
    Nat × List Cell :=
  let booking_id := now_ms
  (booking_id,
   [Cell.int booking_id, Cell.str b.date, Cell.str b.start_time,
    Cell.str b.end_time, Cell.str b.service, Cell.int b.duration_min,
    Cell.str b.name, Cell.str b.phone, Cell.str "booked", Cell.str b.note,
    Cell.str created_at])

/-- The guest confirmation button handler (lines 228-243): if the stripped
name or phone is empty, a warning is shown and nothing is written
(first component none, warned component true); otherwise the booking record
is built and appended, with no warning. -/
def confirm_booking (now_ms : Nat) (created_at : String)
    (selected_date selected_time : String) (duration_min : Nat)
    (service name phone note : String) : Option (Nat × List Cell) × Bool :=
  if strip name == "" || strip phone == "" then (none, true)
  else
    (some (save_booking now_ms created_at
      (mkBookingRecord selected_date selected_time duration_min
        service name phone note)), false)

/-- The admin add-service form handler (lines 305-309): when the stripped
service name is non-empty, a row [name.strip(), int(duration), price.strip()]
is appended; otherwise nothing happens at all — in particular no warning is
shown on the empty-name path (the Bool component records whether any
warning was surfaced, and it is false on both paths). -/
def add_service_submit (new_service : String) (new_duration : Nat)
    (new_price : String) : Option (List Cell) × Bool :=
  if !(strip new_service == "") then
    (some [Cell.str (strip new_service), Cell.int new_duration,
           Cell.str (strip new_price)], false)
  else (none, false)

/-- A worksheet as the admin panel manipulates it: the header row and the
data rows (get_all_records pairs each data row with the header). -/
structure Sheet where
  header : List String
  rows : List (List Cell)
  deriving Repr, DecidableEq

/-- r.get(key) followed by str(): look the key up in the header, read that
column of the row.  A key missing from the header yields Python's
str(None); a row cell missing under an existing header column is the empty
string gspread pads with. -/
def recGet (header : List String) (row : List Cell) (key : String) : String :=
  match header.indexOf? key with
  | some j =>
    match row.get? j with
    | some c => cellStr c
    | none => ""
  | none => "None"

/-- The admin status-update scan (lines 279-296): walk the data rows in
order; at the first row whose str(id) equals the stripped entered id, if the
header has a "status" column overwrite that single cell with the new status
and stop (break); if the header lacks "status" (the ValueError branch) the
loop keeps scanning without writing.  Returns the new rows and the
`updated` flag. -/
def updateStatusRows (header : List String) (entered new_status : String) :
    List (List Cell) → List (List Cell) × Bool
  | [] => ([], false)
  | r :: rest =>
    if recGet header r "id" == entered then
      match header.indexOf? "status" with
      | some j => (r.set j (Cell.str new_status) :: rest, true)
      | none =>
        let (rest2, u) := updateStatusRows header entered new_status rest
        (r :: rest2, u)
    else
      let (rest2, u) := updateStatusRows header entered new_status rest
      (r :: rest2, u)

/-- The whole admin "Alkalmaz státusz" action on a sheet, for a non-empty
entered id: strip the entered id, scan and update.  The Bool is the
`updated` flag; when it is false the code reports "Nem található ilyen id"
and no cell has been written. -/
def apply_status (sheet : Sheet) (entered new_status : String) : Sheet × Bool :=
  let (rows2, u) := updateStatusRows sheet.header (strip entered) new_status sheet.rows
  ({ sheet with rows := rows2 }, u)

/-- The eleven cells a guest submission appends, in the Bookings header
order, written out for comparison with save_booking's output. -/
def expectedBookingRow (now_ms : Nat) (created_at dt stime_s : String)
    (d st : Nat) (service name phone note : String) : List Cell :=
  [Cell.int now_ms, Cell.str dt, Cell.str stime_s,
   Cell.str (fmtHM ((st + d) % minutesPerDay)), Cell.str service, Cell.int d,
   Cell.str (strip name), Cell.str (strip phone), Cell.str "booked",
   Cell.str (strip note), Cell.str created_at]

/- ---------------------------------------------------------------- -/
/- Theorems.                                                        -/
/- ---------------------------------------------------------------- -/

theorem slotsLoopF_congr (f : Nat) : ∀ (g cur endT : Nat),
    endT + 1 ≤ cur + f → endT + 1 ≤ cur + g →
    slotsLoopF f cur endT = slotsLoopF g cur endT := by
  induction f with
  | zero =>
    intro g cur endT hf hg
    cases g with
    | zero => rfl
    | succ m =>
      simp only [slotsLoopF]
      rw [if_neg (by omega)]
  | succ n ih =>
    intro g cur endT hf hg
    cases g with
    | zero =>
      simp only [slotsLoopF]
      rw [if_neg (by omega)]
    | succ m =>
      simp only [slotsLoopF]
      by_cases hc : cur + 15 ≤ endT
      · rw [if_pos hc, if_pos hc,
          ih m (cur + SLOT_MINUTES) endT
            (by simp only [SLOT_MINUTES]; omega)
            (by simp only [SLOT_MINUTES]; omega)]
      · rw [if_neg hc, if_neg hc]

/-- slotsLoop satisfies the recurrence of the Python while loop:
if cur + 15min <= end_dt it emits the formatted cur and continues at
cur + SLOT_MINUTES, otherwise it stops (so the fuel in `slotsLoopF` is
invisible: the guard terminates the loop). -/
theorem slotsLoop_eq (cur endT : Nat) :
    slotsLoop cur endT =
      if cur + 15 ≤ endT then fmtHM cur :: slotsLoop (cur + SLOT_MINUTES) endT
      else [] := by
  by_cases hc : cur + 15 ≤ endT
  · rw [if_pos hc]
    unfold slotsLoop
    rw [show endT + 1 - cur = (endT - cur) + 1 by omega]
    simp only [slotsLoopF]
    rw [if_pos hc,
      slotsLoopF_congr (endT - cur) (endT + 1 - (cur + SLOT_MINUTES))
        (cur + SLOT_MINUTES) endT
        (by simp only [SLOT_MINUTES]; omega)
        (by simp only [SLOT_MINUTES]; omega)]
  · rw [if_neg hc]
    unfold slotsLoop
    cases hf : endT + 1 - cur with
    | zero => rfl
    | succ m =>
      simp only [slotsLoopF]
      rw [if_neg hc]

/-- Whatever arguments generate_slots receives, it returns the fixed
candidate list. -/
theorem generate_slots_eq_slot_list {α β : Type} (dt : String) (a : α)
    (b : β) : generate_slots dt a b = slot_list := rfl

/-- The concrete candidate list for the 09:00-18:00, 30-minute
configuration. -/
theorem slot_list_val : slot_list =
    ["09:00", "09:30", "10:00", "10:30", "11:00", "11:30", "12:00", "12:30",
     "13:00", "13:30", "14:00", "14:30", "15:00", "15:30", "16:00", "16:30",
     "17:00", "17:30"] := by decide

/-- The candidates carry strictly increasing times of day. -/
theorem slot_list_pairwise :
    List.Pairwise (fun a b => (parseHM a).getD 0 < (parseHM b).getD 0)
      slot_list := by decide

/-- The conflict scan is false iff every row's conflict test is false. -/
theorem anyConflict_eq_false (st et : Nat) (l : List Booking) :
    anyConflict st et l = false ↔ ∀ b ∈ l, rowConflict st et b = false := by
  simp [anyConflict, List.any_eq_false]

/-- One row raises no conflict iff, whenever both its stored times parse,
the half-open overlap test fails. -/
theorem rowConflict_eq_false (st et : Nat) (b : Booking) :
    rowConflict st et b = false ↔
      ∀ p q, parseHM b.start_time = some p → parseHM b.end_time = some q →
        ¬(st < q ∧ et > p) := by
  unfold rowConflict
  cases h1 : parseHM b.start_time with
  | none => simp
  | some p0 =>
    cases h2 : parseHM b.end_time with
    | none => simp
    | some q0 =>
      simp only [Option.some.injEq]
      constructor
      · rintro h p q rfl rfl hlt
        simp only [overlaps, Bool.and_eq_false_iff, decide_eq_false_iff_not] at h
        rcases h with h | h
        · exact h hlt.1
        · exact h hlt.2
      · intro h
        have := h p0 q0 rfl rfl
        simp only [overlaps, Bool.and_eq_false_iff, decide_eq_false_iff_not]
        by_cases hl : st < q0
        · exact Or.inr (fun hr => this ⟨hl, hr⟩)
        · exact Or.inl hl

/-- Membership in the returned availability, characterised for a candidate
whose string parses to st. -/
theorem mem_avail_iff (dt : String) (d : Nat) (bs : List Booking) (s : String)
    (st : Nat) (hs : parseHM s = some st) :
    s ∈ avail_slots dt d bs ↔
      s ∈ slot_list ∧
        anyConflict st (st + d) (bs.filter (fun b => b.date == dt)) = false ∧
        (st + d) % minutesPerDay ≤ workClose := by
  unfold avail_slots
  rw [List.mem_filter, generate_slots_eq_slot_list]
  simp only [hs, Bool.and_eq_true, Bool.not_eq_true', decide_eq_true_eq,
    and_assoc]

/-- A booking with an unparseable stored time never conflicts. -/
theorem rowConflict_of_bad (st et : Nat) (b : Booking)
    (hbad : parseHM b.start_time = none ∨ parseHM b.end_time = none) :
    rowConflict st et b = false := by
  unfold rowConflict
  rcases hbad with h | h
  · rw [h]
  · rw [h]
    cases parseHM b.start_time <;> rfl

/-- Dropping a never-conflicting booking from anywhere in the day's list
leaves the conflict scan unchanged. -/
theorem anyConflict_middle (st et : Nat) (b : Booking)
    (hbad : rowConflict st et b = false) (l1 l2 : List Booking) :
    anyConflict st et (l1 ++ b :: l2) = anyConflict st et (l1 ++ l2) := by
  simp [anyConflict, List.any_append, List.any_cons, hbad]

/-- C2: the candidate generator produces exactly the strings
opening + k*SLOT_MINUTES for every k with that time plus 15 minutes at or
before closing (here k < 18), in strictly increasing time order; with the
09:00/18:00 configuration the candidates run from "09:00" to "17:30" and no
final partial window such as "17:45" is generated.  The generator's output
does not mention any service duration. -/
theorem claim_C2 :
    slot_list =
        (List.range 18).map (fun k => fmtHM (workOpen + SLOT_MINUTES * k)) ∧
      (∀ k : Nat, workOpen + SLOT_MINUTES * k + 15 ≤ workClose ↔ k < 18) ∧
      List.Pairwise (fun a b => (parseHM a).getD 0 < (parseHM b).getD 0)
        slot_list ∧
      slot_list.head? = some "09:00" ∧
      slot_list.getLast? = some "17:30" ∧
      "17:45" ∉ slot_list := by
  refine ⟨by decide, ?_, slot_list_pairwise, by decide, by decide, by decide⟩
  intro k
  simp only [workOpen, SLOT_MINUTES, workClose]
  omega

theorem claim_C2_witness :
    workOpen + SLOT_MINUTES * 17 + 15 ≤ workClose :=
  (claim_C2.2.1 17).mpr (by decide)

/-- C10: generate_slots depends only on the selected date and the module
configuration; replacing the services and bookings dataframe arguments by
any other values (even of other types) leaves the candidate list unchanged. -/
theorem claim_C10 {α β γ δ : Type} (dt : String) (a : α) (b : β) (c : γ)
    (e : δ) : generate_slots dt a b = generate_slots dt c e := rfl

theorem claim_C10_witness :
    generate_slots "2026-10-12" (0 : Nat) "x" =
      generate_slots "2026-10-12" true [(3 : Nat)] :=
  claim_C10 "2026-10-12" (0 : Nat) "x" true [(3 : Nat)]

/-- C5: the availability computation is deterministic (equal inputs give
equal output), its output is a subsequence of the candidate generation
order, appears in strictly increasing chronological order, and has no
duplicates. -/
theorem claim_C5 (dt : String) (d : Nat) (bs : List Booking) :
    avail_slots dt d bs = avail_slots dt d bs ∧
      List.Sublist (avail_slots dt d bs) slot_list ∧
      List.Pairwise (fun a b => (parseHM a).getD 0 < (parseHM b).getD 0)
        (avail_slots dt d bs) ∧
      (avail_slots dt d bs).Nodup := by
  have hsub : List.Sublist (avail_slots dt d bs) slot_list := by
    unfold avail_slots
    rw [generate_slots_eq_slot_list]
    exact List.filter_sublist slot_list
  have hpw : List.Pairwise (fun a b => (parseHM a).getD 0 < (parseHM b).getD 0)
      (avail_slots dt d bs) := slot_list_pairwise.sublist hsub
  refine ⟨rfl, hsub, hpw, hpw.imp ?_⟩
  intro a b hlt he
  rw [he] at hlt
  exact lt_irrefl _ hlt

theorem claim_C5_witness :
    (avail_slots "2026-10-12" 60
      [⟨"2026-10-12", "10:00", "11:00"⟩]).Nodup :=
  (claim_C5 "2026-10-12" 60 [⟨"2026-10-12", "10:00", "11:00"⟩]).2.2.2

/-- C4: a booking whose stored start or end time fails to parse blocks
nothing: removing it from the day's bookings (wherever it sits in the list)
leaves the returned slots identical, and no failure is raised. -/
theorem claim_C4 (dt : String) (d : Nat) (b : Booking)
    (hbad : parseHM b.start_time = none ∨ parseHM b.end_time = none)
    (l1 l2 : List Booking) :
    avail_slots dt d (l1 ++ b :: l2) = avail_slots dt d (l1 ++ l2) := by
  unfold avail_slots
  rw [generate_slots_eq_slot_list, generate_slots_eq_slot_list]
  apply List.filter_congr
  intro s _
  cases hs : parseHM s with
  | none => rfl
  | some st =>
    dsimp only
    rw [List.filter_append, List.filter_append, List.filter_cons]
    by_cases hb : (b.date == dt) = true
    · rw [if_pos hb,
        anyConflict_middle st (st + d) b (rowConflict_of_bad st (st + d) b hbad)]
    · rw [if_neg hb]

theorem claim_C4_witness :
    avail_slots "2026-10-12" 60 [⟨"2026-10-12", "25:99", "11:00"⟩] =
      avail_slots "2026-10-12" 60 [] :=
  claim_C4 "2026-10-12" 60 ⟨"2026-10-12", "25:99", "11:00"⟩
    (Or.inl (by decide)) [] []

/-- C1 counterexample: with duration 480 (the largest the admin form
accepts) and no bookings, the candidate "16:00" is returned although its
end, 960 + 480 = 1440 minutes (midnight), is after the 18:00 close: the
code compares the end's time of day, 1440 mod 1440 = 0. -/
theorem claim_C1_counterexample :
    parseHM "16:00" = some 960 ∧ "16:00" ∈ slot_list ∧
      "16:00" ∈ avail_slots "2026-10-12" 480 [] ∧
      ¬(960 + 480 ≤ workClose) ∧
      ¬("16:00" ∈ avail_slots "2026-10-12" 480 [] ↔ 960 + 480 ≤ workClose) := by
  decide

/-- C1 (amended): for a date, a positive duration d, and bookings of that
date with parseable times, a candidate S is returned iff the TIME OF DAY of
S.start + d ((S.start + d) mod 24h — not S.start + d itself) is at or
before closing and no booking b has S.start < b.end and S.start + d >
b.start. -/
theorem claim_C1 (dt : String) (d : Nat) (_hd : 0 < d) (bs : List Booking)
    (hdate : ∀ b ∈ bs, b.date = dt)
    (_hparse : ∀ b ∈ bs,
      (parseHM b.start_time).isSome ∧ (parseHM b.end_time).isSome)
    (s : String) (st : Nat) (hs : parseHM s = some st)
    (hgen : s ∈ slot_list) :
    s ∈ avail_slots dt d bs ↔
      ((st + d) % minutesPerDay ≤ workClose ∧
        ∀ b ∈ bs, ∀ p q, parseHM b.start_time = some p →
          parseHM b.end_time = some q → ¬(st < q ∧ st + d > p)) := by
  rw [mem_avail_iff dt d bs s st hs]
  have hfilter : bs.filter (fun b => b.date == dt) = bs :=
    List.filter_eq_self.mpr (fun b hb => by simp [hdate b hb])
  rw [hfilter, anyConflict_eq_false]
  constructor
  · rintro ⟨-, hconf, hclose⟩
    exact ⟨hclose, fun b hb => (rowConflict_eq_false st (st + d) b).mp
      (hconf b hb)⟩
  · rintro ⟨hclose, hconf⟩
    exact ⟨hgen, fun b hb => (rowConflict_eq_false st (st + d) b).mpr
      (hconf b hb), hclose⟩

theorem claim_C1_witness :
    "11:00" ∈ avail_slots "2026-10-12" 60 [⟨"2026-10-12", "10:00", "11:00"⟩] :=
  (claim_C1 "2026-10-12" 60 (by decide) [⟨"2026-10-12", "10:00", "11:00"⟩]
    (by decide) (by decide) "11:00" 660 (by decide) (by decide)).mpr
    (by
      refine ⟨by decide, ?_⟩
      intro b hb p q hp hq
      simp only [List.mem_singleton] at hb
      subst hb
      rw [show parseHM "10:00" = some 600 from by decide] at hp
      rw [show parseHM "11:00" = some 660 from by decide] at hq
      injection hp with hp1
      injection hq with hq1
      omega)

/-- C3 counterexample: candidate "17:30" with duration 390 ends at
1050 + 390 = 1440 minutes, i.e. 6 hours past the 18:00 close, yet it is
returned: the code compares the end's time of day (midnight, 00:00). -/
theorem claim_C3_counterexample :
    parseHM "17:30" = some 1050 ∧ workClose < 1050 + 390 ∧
      "17:30" ∈ avail_slots "2026-10-11" 390 [] := by decide

/-- C3 (amended): a candidate whose end equals the closing time exactly is
included (with no bookings); a candidate whose end exceeds the closing time
is excluded provided the end stays before midnight (ends at or past
midnight are compared by their time of day instead); concretely, with
duration 60 and no bookings the returned slots run "09:00" .. "17:00" and
"17:30" is absent. -/
theorem claim_C3 (dt : String) (d : Nat) (s : String) (st : Nat)
    (hs : parseHM s = some st) (hgen : s ∈ slot_list) :
    (st + d = workClose → s ∈ avail_slots dt d []) ∧
      (workClose < st + d → st + d < minutesPerDay →
        ∀ bs : List Booking, s ∉ avail_slots dt d bs) ∧
      avail_slots dt 60 [] =
        ["09:00", "09:30", "10:00", "10:30", "11:00", "11:30", "12:00",
         "12:30", "13:00", "13:30", "14:00", "14:30", "15:00", "15:30",
         "16:00", "16:30", "17:00"] := by
  refine ⟨?_, ?_, ?_⟩
  · intro hend
    rw [mem_avail_iff dt d [] s st hs]
    refine ⟨hgen, rfl, ?_⟩
    rw [hend]
    exact Nat.mod_le workClose minutesPerDay
  · intro h1 h2 bs hmem
    rw [mem_avail_iff dt d bs s st hs] at hmem
    have hc := hmem.2.2
    rw [Nat.mod_eq_of_lt h2] at hc
    omega
  · show avail_slots "" 60 [] = _
    decide

theorem claim_C3_witness :
    "17:00" ∈ avail_slots "2026-10-12" 60 [] :=
  (claim_C3 "2026-10-12" 60 "17:00" 1020 (by decide) (by decide)).1
    (by decide)

/-- C6: a guest submission with valid name and phone appends exactly one
row of eleven cells in the Bookings header order: the server id is the
current wall clock in milliseconds, status (column index 8, matching the
header's "status") is the literal "booked", and end_time is start_time plus
the service duration rendered as an HH:MM time of day. -/
theorem claim_C6 (now_ms : Nat) (created_at dt stime_s : String) (d : Nat)
    (service name phone note : String) (st : Nat)
    (hs : parseHM stime_s = some st)
    (hname : ¬(strip name = "")) (hphone : ¬(strip phone = "")) :
    confirm_booking now_ms created_at dt stime_s d service name phone note =
        (some (now_ms, expectedBookingRow now_ms created_at dt stime_s d st
          service name phone note), false) ∧
      (expectedBookingRow now_ms created_at dt stime_s d st service name
        phone note).length = bookingsHeader.length ∧
      bookingsHeader.indexOf? "status" = some 8 ∧
      (expectedBookingRow now_ms created_at dt stime_s d st service name
        phone note)[8]? = some (Cell.str "booked") ∧
      (expectedBookingRow now_ms created_at dt stime_s d st service name
        phone note)[3]? =
        some (Cell.str (fmtHM ((st + d) % minutesPerDay))) := by
  refine ⟨?_, rfl, by decide, rfl, rfl⟩
  have h1 : (strip name == "") = false := beq_eq_false_iff_ne.mpr hname
  have h2 : (strip phone == "") = false := beq_eq_false_iff_ne.mpr hphone
  unfold confirm_booking
  rw [h1, h2, Bool.or_self, if_neg Bool.false_ne_true]
  unfold save_booking mkBookingRecord expectedBookingRow
  rw [hs]

theorem claim_C6_witness :
    confirm_booking 1760000000000 "2026-10-12T09:59:59" "2026-10-12" "10:00"
        60 "Géllakk" " Anna " " 0630 " " ok " =
      (some (1760000000000,
        expectedBookingRow 1760000000000 "2026-10-12T09:59:59" "2026-10-12"
          "10:00" 60 600 "Géllakk" " Anna " " 0630 " " ok "), false) :=
  (claim_C6 1760000000000 "2026-10-12T09:59:59" "2026-10-12" "10:00" 60
    "Géllakk" " Anna " " 0630 " " ok " 600 (by decide) (by decide)
    (by decide)).1

/-- C7 counterexample: two guest submissions whose wall clocks read the
same millisecond receive the same id, not a strictly greater one. -/
theorem claim_C7_counterexample :
    (save_booking 1760000000000 "t1"
        ⟨"2026-10-12", "10:00", "11:00", "G", 60, "A", "1", ""⟩).1 =
      (save_booking 1760000000000 "t2"
        ⟨"2026-10-12", "11:00", "12:00", "G", 60, "B", "2", ""⟩).1 ∧
      ¬((save_booking 1760000000000 "t1"
          ⟨"2026-10-12", "10:00", "11:00", "G", 60, "A", "1", ""⟩).1 <
        (save_booking 1760000000000 "t2"
          ⟨"2026-10-12", "11:00", "12:00", "G", 60, "B", "2", ""⟩).1) := by
  decide

/-- C7 (amended): the id is the wall clock in milliseconds, so across two
sequential submissions the second id is strictly greater exactly when the
millisecond clock has advanced; equal clock readings give equal ids. -/
theorem claim_C7 (t1 t2 : Nat) (c1 c2 : String) (r1 r2 : BookingRecord)
    (h : t1 < t2) :
    (save_booking t1 c1 r1).1 < (save_booking t2 c2 r2).1 := h

theorem claim_C7_witness :
    (save_booking 1760000000000 "t1"
        ⟨"2026-10-12", "10:00", "11:00", "G", 60, "A", "1", ""⟩).1 <
      (save_booking 1760000000001 "t2"
        ⟨"2026-10-12", "11:00", "12:00", "G", 60, "B", "2", ""⟩).1 :=
  claim_C7 1760000000000 1760000000001 "t1" "t2"
    ⟨"2026-10-12", "10:00", "11:00", "G", 60, "A", "1", ""⟩
    ⟨"2026-10-12", "11:00", "12:00", "G", 60, "B", "2", ""⟩ (by decide)

/-- A scan over rows none of which matches the entered id changes nothing
and reports updated = false. -/
theorem updateStatusRows_no_match (header : List String) (entered ns : String) :
    ∀ rows : List (List Cell),
      (∀ r ∈ rows, ¬(recGet header r "id" = entered)) →
      updateStatusRows header entered ns rows = (rows, false) := by
  intro rows
  induction rows with
  | nil => intro _; rfl
  | cons r rest ih =>
    intro h
    have hc : (recGet header r "id" == entered) = false :=
      beq_eq_false_iff_ne.mpr (h r (List.mem_cons_self r rest))
    simp only [updateStatusRows, hc, Bool.false_eq_true, if_false,
      ih (fun x hx => h x (List.mem_cons_of_mem r hx))]

/-- The scan updates the status cell of the first matching row and stops. -/
theorem updateStatusRows_first (entered ns : String) (r : List Cell)
    (hm : recGet bookingsHeader r "id" = entered) :
    ∀ l1 : List (List Cell),
      (∀ r2 ∈ l1, ¬(recGet bookingsHeader r2 "id" = entered)) →
      ∀ l2, updateStatusRows bookingsHeader entered ns (l1 ++ r :: l2) =
        (l1 ++ r.set 8 (Cell.str ns) :: l2, true) := by
  intro l1
  induction l1 with
  | nil =>
    intro _ l2
    simp only [List.nil_append, updateStatusRows, hm, beq_self_eq_true,
      if_true]
    rfl
  | cons r0 rest ih =>
    intro h l2
    have hc : (recGet bookingsHeader r0 "id" == entered) = false :=
      beq_eq_false_iff_ne.mpr (h r0 (List.mem_cons_self r0 rest))
    simp only [List.cons_append, updateStatusRows, hc, Bool.false_eq_true,
      if_false, List.append_eq,
      ih (fun x hx => h x (List.mem_cons_of_mem r0 hx)) l2]

/-- C8: the status update scans the booking rows in order; at the first row
whose stringified id equals the stripped entered id it rewrites exactly the
status cell (index 8, the header's "status" column) and leaves every other
cell of that row and every other row unchanged; if no row matches, nothing
is written and updated = false (an error is reported). -/
theorem claim_C8 (rows : List (List Cell)) (entered new_status : String) :
    ((∀ r ∈ rows, ¬(recGet bookingsHeader r "id" = strip entered)) →
        apply_status ⟨bookingsHeader, rows⟩ entered new_status =
          (⟨bookingsHeader, rows⟩, false)) ∧
      (∀ l1 r l2, rows = l1 ++ r :: l2 →
        (∀ r2 ∈ l1, ¬(recGet bookingsHeader r2 "id" = strip entered)) →
        recGet bookingsHeader r "id" = strip entered →
        apply_status ⟨bookingsHeader, rows⟩ entered new_status =
            (⟨bookingsHeader, l1 ++ r.set 8 (Cell.str new_status) :: l2⟩,
              true) ∧
          ∀ k, ¬(k = 8) →
            (r.set 8 (Cell.str new_status))[k]? = r[k]?) := by
  constructor
  · intro h
    unfold apply_status
    rw [updateStatusRows_no_match bookingsHeader (strip entered) new_status
      rows h]
  · intro l1 r l2 hrows h1 hmatch
    subst hrows
    refine ⟨?_, ?_⟩
    · unfold apply_status
      rw [updateStatusRows_first (strip entered) new_status r hmatch l1 h1 l2]
    · intro k hk
      exact List.getElem?_set_ne (fun he => hk he.symm)

theorem claim_C8_witness :
    apply_status
        ⟨bookingsHeader,
          [[Cell.int 5, Cell.str "2026-10-12", Cell.str "10:00",
            Cell.str "11:00", Cell.str "G", Cell.int 60, Cell.str "A",
            Cell.str "1", Cell.str "booked", Cell.str "", Cell.str "c"],
           [Cell.int 7, Cell.str "2026-10-12", Cell.str "12:00",
            Cell.str "13:00", Cell.str "G", Cell.int 60, Cell.str "B",
            Cell.str "2", Cell.str "booked", Cell.str "", Cell.str "c"]]⟩
        " 7 " "cancelled" =
      (⟨bookingsHeader,
          [[Cell.int 5, Cell.str "2026-10-12", Cell.str "10:00",
            Cell.str "11:00", Cell.str "G", Cell.int 60, Cell.str "A",
            Cell.str "1", Cell.str "booked", Cell.str "", Cell.str "c"],
           [Cell.int 7, Cell.str "2026-10-12", Cell.str "12:00",
            Cell.str "13:00", Cell.str "G", Cell.int 60, Cell.str "B",
            Cell.str "2", Cell.str "cancelled", Cell.str "", Cell.str "c"]]⟩,
        true) :=
  ((claim_C8
      [[Cell.int 5, Cell.str "2026-10-12", Cell.str "10:00",
        Cell.str "11:00", Cell.str "G", Cell.int 60, Cell.str "A",
        Cell.str "1", Cell.str "booked", Cell.str "", Cell.str "c"],
       [Cell.int 7, Cell.str "2026-10-12", Cell.str "12:00",
        Cell.str "13:00", Cell.str "G", Cell.int 60, Cell.str "B",
        Cell.str "2", Cell.str "booked", Cell.str "", Cell.str "c"]]
      " 7 " "cancelled").2
    [[Cell.int 5, Cell.str "2026-10-12", Cell.str "10:00",
      Cell.str "11:00", Cell.str "G", Cell.int 60, Cell.str "A",
      Cell.str "1", Cell.str "booked", Cell.str "", Cell.str "c"]]
    [Cell.int 7, Cell.str "2026-10-12", Cell.str "12:00",
      Cell.str "13:00", Cell.str "G", Cell.int 60, Cell.str "B",
      Cell.str "2", Cell.str "booked", Cell.str "", Cell.str "c"]
    [] rfl (by decide) (by decide)).1

/-- C9 counterexample: submitting the add-service form with an empty name
appends nothing but also surfaces no warning (the handler is silent),
contrary to the claim that an inline warning is shown. -/
theorem claim_C9_counterexample :
    (add_service_submit "" 60 "0").1 = none ∧
      (add_service_submit "" 60 "0").2 = false := by decide

/-- C9 (amended): a guest submission with an empty or whitespace-only name
or phone surfaces an inline warning and appends nothing; an admin
add-service submission whose stripped name is empty appends nothing but
surfaces NO warning. -/
theorem claim_C9 (now_ms : Nat) (created_at dt stime_s : String) (d : Nat)
    (service name phone note svc price : String) (dur : Nat) :
    ((strip name = "" ∨ strip phone = "") →
        confirm_booking now_ms created_at dt stime_s d service name phone
          note = (none, true)) ∧
      (strip svc = "" → add_service_submit svc dur price = (none, false)) := by
  constructor
  · intro h
    unfold confirm_booking
    rw [if_pos]
    rcases h with h | h <;> simp [h]
  · intro h
    unfold add_service_submit
    rw [if_neg]
    simp [h]

theorem claim_C9_witness :
    confirm_booking 1 "t" "2026-10-12" "10:00" 60 "G" "   " "0630" "" =
      (none, true) :=
  (claim_C9 1 "t" "2026-10-12" "10:00" 60 "G" "   " "0630" "" "x" "0" 60).1
    (Or.inl (by decide))

end Salonic
